import Mathlib

/-!
Shallow embedding of the ai-cashflow-coo core pipeline: the loader/normalizer
(src/engine/loader.py, src/app.py), the metrics engines (src/engine/metrics.py,
src/engine/cashflow.py), the forecast engine (src/engine/forecast.py) and the
decision engine (src/engine/decisions.py).  Monetary values and ratios are
modelled as exact rationals; dates are modelled as day ordinals (naturals);
pandas NaN/NaT is modelled with Option; Python exceptions are modelled with
Except at the function whose body can raise.
-/

deriving instance DecidableEq for Except

namespace CashflowCOO

/-! ## String helpers (Python `in`, `str.lower`, `str.strip`) -/

/-- Python `str.lower()` (ASCII, which covers every header and label in the
source). -/
def toLowerStr (s : String) : String := String.mk (s.toList.map Char.toLower)

/-- Python `str.strip()`: drop whitespace from both ends. -/
def trimStr (s : String) : String :=
  String.mk (((s.toList.dropWhile Char.isWhitespace).reverse.dropWhile
    Char.isWhitespace).reverse)

/-- Auxiliary substring scan: does the needle occur in the haystack char list? -/
def strContainsAux (n : List Char) : List Char → Bool
  | [] => n.isEmpty
  | c :: rest => n.isPrefixOf (c :: rest) || strContainsAux n rest

/-- Python's `needle in hay` substring test. -/
def strContains (hay needle : String) : Bool :=
  strContainsAux needle.toList hay.toList

/-- Does the haystack contain any of the given substrings?  Models both a Python
`any(x in s for x in [...])` generator and a pandas `str.contains("a|b|c")`
regex alternation. -/
def containsAny (hay : String) (needles : List String) : Bool :=
  needles.any (fun n => strContains hay n)

/-- Python's `str(c).lower().strip()` header normalization. -/
def lowerStrip (s : String) : String := trimStr (toLowerStr s)

/-! ## Numeric-cell parsing (loader.py `clean_currency`) -/

/-- Numeric value of a decimal digit character. -/
def digitVal (c : Char) : ℕ := c.toNat - 48

/-- Value of an all-digit character list read in base 10. -/
def natOfDigits (cs : List Char) : ℕ := cs.foldl (fun a c => a * 10 + digitVal c) 0

/-- Split a character list at its first `'.'`: the part before, and (when a dot
is present) the part after. -/
def splitOnDot : List Char → (List Char × Option (List Char))
  | [] => ([], none)
  | '.' :: rest => ([], some rest)
  | c :: rest =>
      let p := splitOnDot rest
      (c :: p.1, p.2)

/-- The syntactic part of Python `float(s)` restricted to the character set
clean_currency can emit (digits, dots and minus signs): an optional leading
minus, digits with at most one dot and at least one digit; anything else
fails.  A stray `'-'` or a second `'.'` lands in a digit-only segment and is
rejected, exactly as `float` raises on it.  Returns
(negative?, integer part, fractional part, fractional length). -/
def parseFloatParts (s : String) : Option (Bool × ℕ × ℕ × ℕ) :=
  let cs := s.toList
  let neg : Bool := cs.head? = some '-'
  let body := if neg then cs.drop 1 else cs
  let p := splitOnDot body
  let ip := p.1
  let fp := (p.2).getD []
  if body.isEmpty then none
  else if ip.isEmpty && fp.isEmpty then none
  else if ip.all Char.isDigit && fp.all Char.isDigit then
    some (neg, natOfDigits ip, natOfDigits fp, fp.length)
  else none

/-- The numeric value of a parsed float: sign × (integer part + fractional
part / 10^length). -/
def ratOfParts (p : Bool × ℕ × ℕ × ℕ) : ℚ :=
  (if p.1 then (-1 : ℚ) else 1) * ((p.2.1 : ℚ) + (p.2.2.1 : ℚ) / (10 : ℚ) ^ p.2.2.2)

/-- Python `float(s)` on clean_currency output, as an exact rational. -/
def parseFloatQ (s : String) : Option ℚ := (parseFloatParts s).map ratOfParts

/-- loader.py `clean_currency`: empty/missing cells are 0; otherwise keep only
digits, dots and minus signs and parse; a cell that still fails to parse
resolves to 0, not an error. -/
def cleanCurrency (s : String) : ℚ :=
  if s = "" then 0
  else
    let cleaned := String.mk (s.toList.filter (fun c => c.isDigit || c = '.' || c = '-'))
    (parseFloatQ cleaned).getD 0

/-- Models `pandas.to_datetime(_, errors="coerce")` for the day-ordinal date
encoding used throughout this development: a (trimmed) all-digit cell is the
day ordinal, every other cell coerces to NaT (`none`). -/
def parseDate (s : String) : Option ℕ :=
  let t := trimStr s
  if t ≠ "" && t.toList.all Char.isDigit then some (natOfDigits t.toList) else none

/-! ## Rounding and truncation (Python `round`, `int`) -/

/-- Python `round(x, n)`: banker's rounding to `n` decimal places on exact
rationals. -/
def roundDp (n : ℕ) (x : ℚ) : ℚ :=
  let p : ℚ := (10 : ℚ) ^ n
  let y := x * p
  let f : ℤ := ⌊y⌋
  let r := y - (f : ℚ)
  (if r < 1 / 2 then (f : ℚ)
   else if 1 / 2 < r then ((f + 1 : ℤ) : ℚ)
   else if f % 2 = 0 then (f : ℚ) else ((f + 1 : ℤ) : ℚ)) / p

/-- Python `round(x)` with no digits argument: banker's rounding to an integer. -/
def roundInt (x : ℚ) : ℤ :=
  let f : ℤ := ⌊x⌋
  let r := x - (f : ℚ)
  if r < 1 / 2 then f
  else if 1 / 2 < r then f + 1
  else if f % 2 = 0 then f else f + 1

/-- Python `int(x)` on a float: truncation toward zero. -/
def truncQ (q : ℚ) : ℤ := if 0 ≤ q then ⌊q⌋ else ⌈q⌉

/-! ## Forecast engine (src/engine/forecast.py `forecast_cashflow`) -/

/-- One row of the forecast DataFrame built by forecast_cashflow. -/
structure FPoint where
  date : ℕ
  opening_cash : ℚ
  inflows : ℚ
  outflows : ℚ
  closing_cash : ℚ
  deriving DecidableEq

/-- The body of forecast_cashflow's `for day in range(1, days + 1)` loop:
`cash` is the carried `current_cash`, `day` the loop counter, `rem` the number
of iterations left. -/
def forecastAux (startDate : ℕ) (sales adSpend fixedCost : ℚ) (delay : ℤ)
    (rate : ℚ) : ℚ → ℕ → ℕ → List FPoint
  | _, _, 0 => []
  | cash, day, rem + 1 =>
      let inflow : ℚ := if (day : ℤ) ≤ delay then 0 else sales * (1 - rate)
      let outflow : ℚ := adSpend + fixedCost
      let closing : ℚ := cash + inflow - outflow
      ⟨startDate + day, cash, inflow, outflow, closing⟩ ::
        forecastAux startDate sales adSpend fixedCost delay rate closing (day + 1) rem

/-- src/engine/forecast.py `forecast_cashflow`: day-by-day simulation from
`cash_today` over `days` days, with inflows withheld during the COD delay
window. -/
def forecast_cashflow (cashToday : ℚ) (startDate : ℕ) (days : ℕ)
    (sales adSpend fixedCost : ℚ) (delay : ℤ) (rate : ℚ) : List FPoint :=
  forecastAux startDate sales adSpend fixedCost delay rate cashToday 1 days

/-! ## Loader / Normalizer (src/engine/loader.py `load_transactions`)

A raw uploaded table is a list of named columns of string cells (rectangular
in every concrete instance).  Column lookup is by first matching name. -/

/-- A raw tabular input: column headers with their cell values. -/
structure Table where
  cols : List (String × List String)
  deriving DecidableEq

/-- A row of the canonical frame the loader returns: resolved date, resolved
signed amount, and the description cell when a description column exists. -/
structure LRow where
  date : ℕ
  amount : ℚ
  description : Option String
  deriving DecidableEq

/-- Header standardization: `df.columns = [str(c).lower().strip() for c in df.columns]`. -/
def normHeaders (t : Table) : List (String × List String) :=
  t.cols.map (fun c => (lowerStrip c.1, c.2))

/-- loader.py date-column detection: `'date' in c or 'time' in c`. -/
def isDateName (h : String) : Bool := strContains h "date" || strContains h "time"

/-- loader.py description-column detection: `'desc' in c or 'activity' in c or 'name' in c`. -/
def isDescName (h : String) : Bool :=
  strContains h "desc" || strContains h "activity" || strContains h "name"

/-- Pandas rename with a single old-to-new entry: every column named `old` is renamed. -/
def renameMatching (cols : List (String × List String)) (old new : String) :
    List (String × List String) :=
  cols.map (fun c => if c.1 = old then (new, c.2) else c)

/-- The loader's column state after header standardization and the date and
description renames. -/
def loaderCols (t : Table) : List (String × List String) :=
  let cols := normHeaders t
  let cols1 :=
    match cols.find? (fun c => isDateName c.1) with
    | some c => renameMatching cols c.1 "date"
    | none => cols
  match cols1.find? (fun c => isDescName c.1) with
  | some c => renameMatching cols1 c.1 "description"
  | none => cols1

/-- Exact-name column access, first match (`df['name']`, `'name' in df.columns`). -/
def getColExact (cols : List (String × List String)) (name : String) :
    Option (List String) :=
  (cols.find? (fun c => decide (c.1 = name))).map (fun c => c.2)

/-- loader.py amount detection, in source order: an `amount` column cleaned in
place; else `credit - debit`; else `inflow - outflow`; else
`deposits - withdrawals`; else no amount column is built. -/
def detectAmounts (cols : List (String × List String)) : Option (List ℚ) :=
  match getColExact cols "amount" with
  | some vs => some (vs.map cleanCurrency)
  | none =>
    match getColExact cols "debit", getColExact cols "credit" with
    | some dv, some cv =>
        some (List.zipWith (fun c d => cleanCurrency c - cleanCurrency d) cv dv)
    | _, _ =>
      match getColExact cols "inflow", getColExact cols "outflow" with
      | some iv, some ov =>
          some (List.zipWith (fun i o => cleanCurrency i - cleanCurrency o) iv ov)
      | _, _ =>
        match getColExact cols "deposits", getColExact cols "withdrawals" with
        | some dp, some wd =>
            some (List.zipWith (fun d w => cleanCurrency d - cleanCurrency w) dp wd)
        | _, _ => none

/-- Modelled from the spec (for comparison only, never from the source): the
amount-resolution priority order exactly as the specification words it —
(a) signed `amount` column, (b) `debit`/`credit` pair, (c)
`withdrawals`/`deposits` pair, (d) `inflow`/`outflow` pair. -/
def specPriorityAmounts (cols : List (String × List String)) : Option (List ℚ) :=
  match getColExact cols "amount" with
  | some vs => some (vs.map cleanCurrency)
  | none =>
    match getColExact cols "debit", getColExact cols "credit" with
    | some dv, some cv =>
        some (List.zipWith (fun c d => cleanCurrency c - cleanCurrency d) cv dv)
    | _, _ =>
      match getColExact cols "deposits", getColExact cols "withdrawals" with
      | some dp, some wd =>
          some (List.zipWith (fun d w => cleanCurrency d - cleanCurrency w) dp wd)
      | _, _ =>
        match getColExact cols "inflow", getColExact cols "outflow" with
        | some iv, some ov =>
            some (List.zipWith (fun i o => cleanCurrency i - cleanCurrency o) iv ov)
        | _, _ => none

/-- The body of load_transactions inside its `try`: column detection, amount
construction, date coercion, and the dropna row admission.  A missing date
column makes `df['date']` raise (modelled as `.error`), and a missing amount
representation makes `dropna(subset=['date','amount'])` raise.  Amount cells
are cleaned to numbers and never NaN, so dropna only removes rows whose date
failed to parse. -/
def loadTransactionsCore (t : Table) : Except String (List LRow) :=
  let cols := loaderCols t
  match getColExact cols "date" with
  | none => .error "KeyError: date"
  | some dateVals =>
    match detectAmounts cols with
    | none => .error "KeyError: amount"
    | some amts =>
      let descVals := getColExact cols "description"
      .ok ((List.range dateVals.length).filterMap (fun i =>
        match parseDate ((dateVals.get? i).getD "") with
        | none => none
        | some d =>
            some ⟨d, (amts.get? i).getD 0,
                  descVals.map (fun ds => (ds.get? i).getD "")⟩))

/-- src/engine/loader.py `load_transactions`: the whole body runs under
`try: ... except Exception: return pd.DataFrame()`, so every internal failure
becomes an empty frame. -/
def loadTransactions (t : Table) : List LRow :=
  match loadTransactionsCore t with
  | .ok rows => rows
  | .error _ => []

/-! ## Canonical transaction frames (inputs of metrics.py / cashflow.py / app.py)

A DataFrame at the metrics stage: per-row cells plus flags recording which
columns exist.  The `ty` (type), `debit` and `credit` cells are meaningful only
when the matching column flag is set; `df.get(col, 0)` on a missing column is
modelled by the flag check at the use site. -/

/-- One transaction row of a canonical frame. -/
structure Txn where
  date : ℕ
  amount : ℚ
  description : String
  ty : String
  debit : Option ℚ
  credit : Option ℚ
  deriving DecidableEq

/-- A canonical frame: rows plus column-presence flags. -/
structure Frame where
  hasDate : Bool
  hasAmount : Bool
  hasDescription : Bool
  hasType : Bool
  hasDebit : Bool
  hasCredit : Bool
  rows : List Txn
  deriving DecidableEq

/-- Pandas `df["amount"].sum()`. -/
def sumAmounts (rows : List Txn) : ℚ := (rows.map (fun r => r.amount)).sum

/-- Pandas `df[df["amount"] > 0]["amount"].sum()`. -/
def sumPositive (rows : List Txn) : ℚ :=
  ((rows.filter (fun r => decide (0 < r.amount))).map (fun r => r.amount)).sum

/-- Pandas `df["date"].max()` over a nonempty frame (0 on an empty one, where pandas
would give NaN; callers that reach it on empty input are modelled as erroring). -/
def maxDate (rows : List Txn) : ℕ :=
  match rows.map (fun r => r.date) with
  | [] => 0
  | d :: ds => ds.foldl max d

/-- Pandas `df["date"].min()` over a nonempty frame (0 on an empty one). -/
def minDate (rows : List Txn) : ℕ :=
  match rows.map (fun r => r.date) with
  | [] => 0
  | d :: ds => ds.foldl min d

/-- Pandas `df.sort_values("date")`: ascending stable sort by date. -/
def sortByDate (rows : List Txn) : List Txn :=
  rows.insertionSort (fun a b => a.date ≤ b.date)

/-! ## Metrics engine, COO variant (src/engine/metrics.py `calculate_business_metrics`) -/

/-- The dict returned by calculate_business_metrics. -/
structure BMetrics where
  cash_today : ℚ
  runway_months : ℚ
  avg_daily_sales : ℚ
  avg_daily_ad_spend : ℚ
  avg_daily_fixed_cost : ℚ
  return_rate : ℚ
  ad_spend_pct : ℚ
  avg_daily_outflow : ℚ
  deriving DecidableEq

/-- metrics.py keyword alternation `"ad|facebook|google|meta|insta|marketing|influencer"`,
matched case-insensitively against the description. -/
def adsKeywordsMetrics : List String :=
  ["ad", "facebook", "google", "meta", "insta", "marketing", "influencer"]

/-- metrics.py `"rent|salary|wage|office|internet|software|saas"`. -/
def fixedKeywordsMetrics : List String :=
  ["rent", "salary", "wage", "office", "internet", "software", "saas"]

/-- metrics.py `"refund|return|rto|reverse"`. -/
def returnKeywordsMetrics : List String :=
  ["refund", "return", "rto", "reverse"]

/-- Pandas `df.loc[mask & (df["amount"] < 0), "amount"].abs().sum()` where `mask` is a
case-insensitive keyword match on the description. -/
def absSumNegMatching (rows : List Txn) (keywords : List String) : ℚ :=
  ((rows.filter (fun r =>
      containsAny (toLowerStr r.description) keywords && decide (r.amount < 0))).map
    (fun r => |r.amount|)).sum

/-- src/engine/metrics.py `calculate_business_metrics`.  An empty frame is an
error (pandas: `(NaT - NaT).days` raises), as is a frame missing the date,
amount or description column (KeyError). -/
def calculate_business_metrics (f : Frame) : Except String BMetrics :=
  if ¬(f.hasDate ∧ f.hasAmount ∧ f.hasDescription) then .error "KeyError"
  else if f.rows.isEmpty then .error "NaT has no attribute days"
  else
    let df := sortByDate f.rows
    let totalDaysRaw := maxDate df - minDate df
    let totalDays : ℕ := if totalDaysRaw = 0 then 1 else totalDaysRaw
    let totalInflow := sumPositive df
    let recent := df.filter (fun r => decide ((maxDate df : ℤ) - 30 < (r.date : ℤ)))
    let avgDailySales := sumPositive recent / 30
    let totalAdSpend := absSumNegMatching df adsKeywordsMetrics
    let avgDailyAdSpend := totalAdSpend / (totalDays : ℚ)
    let totalFixed := absSumNegMatching df fixedKeywordsMetrics
    let avgDailyFixedCost := totalFixed / (totalDays : ℚ)
    let totalReturns := absSumNegMatching df returnKeywordsMetrics
    let returnRate : ℚ := if 0 < totalInflow then totalReturns / totalInflow else 0
    let currentCash := sumAmounts df
    let totalDailyOutflow := (totalAdSpend + totalFixed + totalReturns) / (totalDays : ℚ)
    let dailyNetBurn := totalDailyOutflow - avgDailySales * (85 / 100)
    let runwayMonths : ℚ :=
      if 0 < dailyNetBurn then roundDp 1 (currentCash / (dailyNetBurn * 30)) else 99
    .ok
      { cash_today := currentCash
        runway_months := runwayMonths
        avg_daily_sales := roundDp 2 avgDailySales
        avg_daily_ad_spend := roundDp 2 avgDailyAdSpend
        avg_daily_fixed_cost := roundDp 2 avgDailyFixedCost
        return_rate := roundDp 4 returnRate
        ad_spend_pct := if 0 < totalInflow then totalAdSpend / totalInflow else 0
        avg_daily_outflow := totalDailyOutflow }

/-! ## Metrics engine, dashboard variant (src/engine/cashflow.py `calculate_cash_metrics`) -/

/-- The `runway_days` value: the string sentinel `"Cash Positive"` or a rounded
integer day count. -/
inductive Runway where
  | cashPositive : Runway
  | days : ℤ → Runway
  deriving DecidableEq

/-- One entry of the `expense_breakdown` list: category, rounded amount,
rounded percentage. -/
structure ExpenseEntry where
  category : String
  amount : ℚ
  percentage : ℚ
  deriving DecidableEq

/-- Pandas `df[df["amount"] < 0]`. -/
def negRows (rows : List Txn) : List Txn :=
  rows.filter (fun r => decide (r.amount < 0))

/-- The distinct calendar days that have at least one outflow row, in first-seen
order (`groupby(df["date"].dt.date)` group keys). -/
def negDates (rows : List Txn) : List ℕ :=
  ((negRows rows).map (fun r => r.date)).dedup

/-- cashflow.py line 33: `df[df["amount"] < 0].groupby(df["date"].dt.date)["amount"].sum().mean()`.
The mean over an empty group list is pandas NaN, modelled as `none`. -/
def burnOf (rows : List Txn) : Option ℚ :=
  match negDates rows with
  | [] => none
  | ds =>
      some (((ds.map (fun d =>
        sumAmounts ((negRows rows).filter (fun r => decide (r.date = d))))).sum) /
        (ds.length : ℚ))

/-- cashflow.py `classify_expense` applied to a lower-cased description. -/
def classify_expense (desc : String) : String :=
  if containsAny desc ["ads", "facebook", "google", "meta"] then "Advertising"
  else if containsAny desc ["salary", "wages", "payroll"] then "Salaries"
  else if containsAny desc ["rent", "office", "lease"] then "Rent"
  else if containsAny desc ["software", "saas", "tool"] then "Software"
  else "Other"

/-- Descending stable sort of (category, magnitude) pairs by magnitude,
modelling `sort_values(ascending=False)` on the grouped sums (ties kept in the
alphabetical key order the groupby produced). -/
def sortExpenseDesc (l : List (String × ℚ)) : List (String × ℚ) :=
  l.insertionSort (fun a b => b.2 ≤ a.2)

/-- The dict returned by calculate_cash_metrics. -/
structure CashMetrics where
  cash_today : ℚ
  runway_days : Runway
  ad_spend_pct : ℚ
  return_rate : ℚ
  expense_breakdown : List ExpenseEntry
  deriving DecidableEq

/-- src/engine/cashflow.py `calculate_cash_metrics`: requires the date, amount
and type columns (else `ValueError`), lower-cases type and description
(description defaulted to `""` when absent), and computes sales, ad spend,
returns, cash, burn, runway and the expense breakdown. -/
def calculate_cash_metrics (f : Frame) : Except String CashMetrics :=
  if ¬(f.hasDate ∧ f.hasAmount ∧ f.hasType) then
    .error "CSV must contain date, amount, type columns"
  else
    let rows := f.rows.map (fun r =>
      { r with
        ty := toLowerStr r.ty
        description := if f.hasDescription then toLowerStr r.description else "" })
    let sales := ((rows.filter (fun r =>
        decide (0 < r.amount) && decide (r.ty = "inflow"))).map (fun r => r.amount)).sum
    let adSpend := ((rows.filter (fun r =>
        containsAny r.description ["ads", "facebook", "google", "instagram", "meta"])).map
      (fun r => |r.amount|)).sum
    let returns := ((rows.filter (fun r =>
        containsAny r.description ["refund", "return"])).map (fun r => |r.amount|)).sum
    let cashToday := sumAmounts rows
    let burn := burnOf rows
    let runway : Runway :=
      match burn with
      | none => .cashPositive
      | some b => if 0 ≤ b then .cashPositive else .days (roundInt |cashToday / b|)
    let expenseRows := (negRows rows).map (fun r =>
      (classify_expense r.description, |r.amount|))
    let cats := (expenseRows.map (fun p => p.1)).dedup.insertionSort (fun a b => a ≤ b)
    let grouped := cats.map (fun c =>
      (c, ((expenseRows.filter (fun p => decide (p.1 = c))).map (fun p => p.2)).sum))
    let expenseSummary := sortExpenseDesc grouped
    let totalExpense := (expenseSummary.map (fun p => p.2)).sum
    let breakdown := expenseSummary.map (fun p =>
      { category := p.1
        amount := roundDp 2 p.2
        percentage := if 0 < totalExpense then roundDp 1 (p.2 / totalExpense * 100) else 0 })
    .ok
      { cash_today := roundDp 2 cashToday
        runway_days := runway
        ad_spend_pct := if 0 < sales then roundDp 1 (adSpend / sales * 100) else 0
        return_rate := if 0 < sales then roundDp 1 (returns / sales * 100) else 0
        expense_breakdown := breakdown }

/-! ## app.py sign-reconciliation guard and core calculations -/

/-- Pandas `df["amount"].min()`: `none` (NaN) on an empty column. -/
def minAmount (rows : List Txn) : Option ℚ :=
  match rows.map (fun r => r.amount) with
  | [] => none
  | a :: as_ => some (as_.foldl min a)

/-- Pandas `df["amount"].max()`: `none` (NaN) on an empty column. -/
def maxAmount (rows : List Txn) : Option ℚ :=
  match rows.map (fun r => r.amount) with
  | [] => none
  | a :: as_ => some (as_.foldl max a)

/-- app.py line 178: `df["amount"].min() < 0 and df["amount"].max() > 0`
(false on an empty frame, where both sides are NaN comparisons). -/
def mixedSign (rows : List Txn) : Bool :=
  match minAmount rows, maxAmount rows with
  | some mn, some mx => decide (mn < 0) && decide (0 < mx)
  | _, _ => false

/-- app.py line 191: `any(x in r["type"] for x in ["outflow", "dr", "debit"])`
on the lower-cased type cell. -/
def typeIsOutflow (ty : String) : Bool :=
  containsAny ty ["outflow", "dr", "debit"]

/-- app.py lines 197-201: the expense keyword fallback list. -/
def expenseKeywordsApp : List String :=
  ["rent", "salary", "ads", "advertising", "google", "facebook",
   "emi", "interest", "gst", "tax", "electricity", "internet",
   "aws", "razorpay", "office", "travel"]

/-- app.py lines 178-207, the "SAFE NORMALIZATION GUARD": amounts already mixed
in sign are trusted unchanged; else a debit/credit pair rebuilds the amount
(when only one of the two columns exists, `df.get(missing, 0)` is the scalar
`0`, whose `.fillna` raises — modelled as `.error`); else a type column forces
the sign from its label; else the expense-keyword fallback forces the sign from
the description. -/
def signReconcile (f : Frame) : Except String Frame :=
  if mixedSign f.rows then .ok f
  else if f.hasDebit || f.hasCredit then
    if f.hasDebit && f.hasCredit then
      .ok { f with rows := f.rows.map (fun r =>
        { r with amount := (r.credit.getD 0) - (r.debit.getD 0) }) }
    else .error "AttributeError: fillna on scalar"
  else if f.hasType then
    .ok { f with rows := f.rows.map (fun r =>
      let tyl := toLowerStr r.ty
      { r with
        ty := tyl
        amount := if typeIsOutflow tyl then -|r.amount| else |r.amount| }) }
  else
    .ok { f with rows := f.rows.map (fun r =>
      { r with amount :=
          if containsAny (toLowerStr r.description) expenseKeywordsApp
          then -|r.amount| else |r.amount| }) }

/-- app.py lines 215-221: per-day sums of negative amounts, absolute value,
mean; NaN (`none`) when there is no negative row. -/
def dailyBurnRaw (rows : List Txn) : Option ℚ :=
  match negDates rows with
  | [] => none
  | ds =>
      some (((ds.map (fun d =>
        |sumAmounts ((negRows rows).filter (fun r => decide (r.date = d)))|)).sum) /
        (ds.length : ℚ))

/-- app.py lines 223-224: `if pd.isna(daily_burn) or daily_burn == 0: daily_burn = 1`. -/
def dailyBurnApp (rows : List Txn) : ℚ :=
  match dailyBurnRaw rows with
  | none => 1
  | some b => if b = 0 then 1 else b

/-- app.py line 226: `runway_days = int(cash_today / daily_burn)`. -/
def runwayDaysApp (rows : List Txn) : ℤ :=
  truncQ (sumAmounts rows / dailyBurnApp rows)

/-! ## Decision engine (src/engine/decisions.py `generate_decisions`) -/

/-- The value found under `runway_months` in the metrics dict: a number, a
string (e.g. `"Cash Positive"`), or `None` when the key is absent. -/
inductive RunwayVal where
  | num : ℚ → RunwayVal
  | strv : String → RunwayVal
  | nonev : RunwayVal
  deriving DecidableEq

/-- The metrics dict as generate_decisions reads it: `ad_spend_pct` and
`return_rate` via `.get(_, 0)` (so `none` means the key is absent and defaults
to 0), `runway_months` via `.get` (absent means `None`). -/
structure DecisionInput where
  ad_spend_pct : Option ℚ
  return_rate : Option ℚ
  runway_months : RunwayVal
  deriving DecidableEq

/-- The risk strings generate_decisions can append, as tagged values carrying
their interpolated data: `adDependency` is "Ad spend is consuming over 30% of
revenue.", `highReturn r` is "High Return Rate ({r*100:.1f}%).",
`criticalRunway m` is "CRITICAL: Cash runway is only {m} months.", and
`negCashflow` is "CRITICAL: Negative cash flow detected.". -/
inductive Risk where
  | adDependency : Risk
  | highReturn : ℚ → Risk
  | criticalRunway : ℚ → Risk
  | negCashflow : Risk
  deriving DecidableEq

/-- The action strings generate_decisions can append: `auditAds` is "Audit ad
sets and stop any with ROAS below 2.0.", `analyzeReturns` is "Analyze return
reasons; pause high-return SKUs.", `negotiateVendors` and `cancelSaaS` are the
two runway actions, `costCut` is "Immediate cost-cutting required.", and
`maintain` is "Maintain current trajectory. Review again in 7 days.". -/
inductive Action where
  | auditAds : Action
  | analyzeReturns : Action
  | negotiateVendors : Action
  | cancelSaaS : Action
  | costCut : Action
  | maintain : Action
  deriving DecidableEq

/-- Python `runway == 0` for the values reachable in the `elif` (evaluated only
when `isinstance(runway, (int, float))` failed): a string or `None` never
compares equal to `0`; the numeric case is included for totality. -/
def pyEqZero : RunwayVal → Bool
  | .num q => decide (q = 0)
  | .strv _ => false
  | .nonev => false

/-- src/engine/decisions.py `generate_decisions`. -/
def generate_decisions (m : DecisionInput) : List Risk × List Action :=
  let a := m.ad_spend_pct.getD 0
  let r := m.return_rate.getD 0
  let rw := m.runway_months
  let p1 : List Risk × List Action :=
    if 3 / 10 < a then ([.adDependency], [.auditAds]) else ([], [])
  let p2 : List Risk × List Action :=
    if 3 / 20 < r then ([.highReturn r], [.analyzeReturns]) else ([], [])
  let p3 : List Risk × List Action :=
    match rw with
    | .num q =>
        if q < 3 then ([.criticalRunway q], [.negotiateVendors, .cancelSaaS])
        else ([], [])
    | other =>
        if pyEqZero other then ([.negCashflow], [.costCut]) else ([], [])
  let risks := p1.1 ++ p2.1 ++ p3.1
  let actions := p1.2 ++ p2.2 ++ p3.2
  (risks, if risks.isEmpty then actions ++ [.maintain] else actions)

/-! ## Theorems -/

lemma forecastAux_length (s : ℕ) (sales ad fx : ℚ) (delay : ℤ) (rate : ℚ) :
    ∀ (rem : ℕ) (cash : ℚ) (day : ℕ),
      (forecastAux s sales ad fx delay rate cash day rem).length = rem := by
  intro rem
  induction rem with
  | zero => intro cash day; rfl
  | succ n ih =>
      intro cash day
      simp only [forecastAux, List.length_cons, ih]

lemma forecastAux_point (s : ℕ) (sales ad fx : ℚ) (delay : ℤ) (rate : ℚ) :
    ∀ (rem : ℕ) (cash : ℚ) (day : ℕ) (i : ℕ)
      (h : i < (forecastAux s sales ad fx delay rate cash day rem).length),
      ((forecastAux s sales ad fx delay rate cash day rem).get ⟨i, h⟩).outflows = ad + fx ∧
      ((forecastAux s sales ad fx delay rate cash day rem).get ⟨i, h⟩).inflows =
        (if ((day + i : ℕ) : ℤ) ≤ delay then 0 else sales * (1 - rate)) ∧
      ((forecastAux s sales ad fx delay rate cash day rem).get ⟨i, h⟩).closing_cash =
        ((forecastAux s sales ad fx delay rate cash day rem).get ⟨i, h⟩).opening_cash +
          ((forecastAux s sales ad fx delay rate cash day rem).get ⟨i, h⟩).inflows -
          ((forecastAux s sales ad fx delay rate cash day rem).get ⟨i, h⟩).outflows := by
  intro rem
  induction rem with
  | zero =>
      intro cash day i h
      simp [forecastAux] at h
  | succ n ih =>
      intro cash day i h
      match i with
      | 0 =>
          refine ⟨rfl, ?_, ?_⟩ <;> simp [forecastAux]
      | Nat.succ j =>
          have h' : j < (forecastAux s sales ad fx delay rate
              (cash + (if (day : ℤ) ≤ delay then 0 else sales * (1 - rate)) - (ad + fx))
              (day + 1) n).length := by
            rw [forecastAux_length]
            have hb : j + 1 < (forecastAux s sales ad fx delay rate cash day (n + 1)).length := h
            rw [forecastAux_length] at hb
            omega
          have key := ih (cash + (if (day : ℤ) ≤ delay then 0 else sales * (1 - rate)) - (ad + fx))
            (day + 1) j h'
          have harith : day + 1 + j = day + (j + 1) := by omega
          rw [harith] at key
          simpa [forecastAux, List.get] using key

lemma forecastAux_chain (s : ℕ) (sales ad fx : ℚ) (delay : ℤ) (rate : ℚ) :
    ∀ (rem : ℕ) (cash : ℚ) (day : ℕ) (i : ℕ)
      (h : i + 1 < (forecastAux s sales ad fx delay rate cash day rem).length),
      ((forecastAux s sales ad fx delay rate cash day rem).get ⟨i + 1, h⟩).opening_cash =
        ((forecastAux s sales ad fx delay rate cash day rem).get
          ⟨i, Nat.lt_of_succ_lt h⟩).closing_cash := by
  intro rem
  induction rem with
  | zero =>
      intro cash day i h
      simp [forecastAux] at h
  | succ n ih =>
      intro cash day i h
      match n, i with
      | 0, i =>
          simp [forecastAux, forecastAux_length] at h
      | Nat.succ m, 0 =>
          simp [forecastAux]
      | Nat.succ m, Nat.succ j =>
          have h' : j + 1 < (forecastAux s sales ad fx delay rate
              (cash + (if (day : ℤ) ≤ delay then 0 else sales * (1 - rate)) - (ad + fx))
              (day + 1) (m + 1)).length := by
            rw [forecastAux_length]
            have hb : j + 1 + 1 <
                (forecastAux s sales ad fx delay rate cash day (Nat.succ m + 1)).length := h
            rw [forecastAux_length] at hb
            omega
          have key := ih (cash + (if (day : ℤ) ≤ delay then 0 else sales * (1 - rate)) - (ad + fx))
            (day + 1) j h'
          simpa [forecastAux, List.get] using key

/-- C2: a forecast run over a given horizon with a non-negative collections
delay returns exactly `horizon` points; every point satisfies
`closing_cash - opening_cash = inflows - outflows`; the inflow of day `i + 1`
is 0 when the day is within the collections delay and
`avg_daily_sales * (1 - return_rate)` afterwards; and each day opens at the
previous day's closing cash. -/
theorem c2_forecast_invariants (cashToday : ℚ) (startDate : ℕ) (days : ℕ)
    (sales ad fx : ℚ) (delay : ℤ) (rate : ℚ) (hdelay : 0 ≤ delay) :
    (forecast_cashflow cashToday startDate days sales ad fx delay rate).length = days ∧
    (∀ (i : ℕ) (h : i < (forecast_cashflow cashToday startDate days sales ad fx delay rate).length),
      ((forecast_cashflow cashToday startDate days sales ad fx delay rate).get ⟨i, h⟩).closing_cash -
        ((forecast_cashflow cashToday startDate days sales ad fx delay rate).get ⟨i, h⟩).opening_cash =
        ((forecast_cashflow cashToday startDate days sales ad fx delay rate).get ⟨i, h⟩).inflows -
          ((forecast_cashflow cashToday startDate days sales ad fx delay rate).get ⟨i, h⟩).outflows) ∧
    (∀ (i : ℕ) (h : i < (forecast_cashflow cashToday startDate days sales ad fx delay rate).length),
      (((i + 1 : ℕ) : ℤ) ≤ delay →
        ((forecast_cashflow cashToday startDate days sales ad fx delay rate).get ⟨i, h⟩).inflows = 0) ∧
      (delay < ((i + 1 : ℕ) : ℤ) →
        ((forecast_cashflow cashToday startDate days sales ad fx delay rate).get ⟨i, h⟩).inflows =
          sales * (1 - rate))) ∧
    (∀ (i : ℕ) (h : i + 1 < (forecast_cashflow cashToday startDate days sales ad fx delay rate).length),
      ((forecast_cashflow cashToday startDate days sales ad fx delay rate).get ⟨i + 1, h⟩).opening_cash =
        ((forecast_cashflow cashToday startDate days sales ad fx delay rate).get
          ⟨i, Nat.lt_of_succ_lt h⟩).closing_cash) := by
  unfold forecast_cashflow
  refine ⟨forecastAux_length startDate sales ad fx delay rate days cashToday 1, ?_, ?_, ?_⟩
  · intro i h
    have key := forecastAux_point startDate sales ad fx delay rate days cashToday 1 i h
    have hclose := key.2.2
    rw [hclose, key.1]
    ring
  · intro i h
    have key := forecastAux_point startDate sales ad fx delay rate days cashToday 1 i h
    have hin := key.2.1
    have harith : 1 + i = i + 1 := by omega
    rw [harith] at hin
    constructor
    · intro hle
      rw [hin, if_pos hle]
    · intro hgt
      rw [hin, if_neg (by omega)]
  · intro i h
    exact forecastAux_chain startDate sales ad fx delay rate days cashToday 1 i h

/-- Witness for C2: the hypothesis `0 ≤ delay` discharged at delay 2, horizon 3. -/
theorem c2_forecast_invariants_witness :
    (0 : ℤ) ≤ 2 ∧ (forecast_cashflow 10 0 3 5 1 1 2 0).length = 3 :=
  ⟨by decide, (c2_forecast_invariants 10 0 3 5 1 1 2 0 (by decide)).1⟩

/-- C9: generate_decisions never emits the "CRITICAL: Negative cash flow
detected" risk: a numeric runway (0 included) is captured by the isinstance
branch, and a non-numeric runway never compares equal to 0, so the
`elif runway == 0` branch cannot fire. -/
theorem c9_negcashflow_unreachable (m : DecisionInput) :
    Risk.negCashflow ∉ (generate_decisions m).1 := by
  rcases m with ⟨a, r, rw⟩
  unfold generate_decisions
  cases rw <;> simp [pyEqZero] <;> split_ifs <;> simp

/-- C6: the advertising-dependency risk fires exactly when `ad_spend_pct`
strictly exceeds 0.30 (the boundary value itself does not fire); the
elevated-return risk fires exactly when `return_rate` strictly exceeds 0.15;
and when no rule fires the returned actions list is exactly the single
"maintain current trajectory" entry. -/
theorem c6_decision_thresholds (m : DecisionInput) :
    (Risk.adDependency ∈ (generate_decisions m).1 ↔ 3 / 10 < m.ad_spend_pct.getD 0) ∧
    (m.ad_spend_pct.getD 0 = 3 / 10 → Risk.adDependency ∉ (generate_decisions m).1) ∧
    ((∃ q, Risk.highReturn q ∈ (generate_decisions m).1) ↔ 3 / 20 < m.return_rate.getD 0) ∧
    (¬ (3 / 10 < m.ad_spend_pct.getD 0) → ¬ (3 / 20 < m.return_rate.getD 0) →
      (∀ q, m.runway_months = RunwayVal.num q → ¬ q < 3) →
      (generate_decisions m).2 = [Action.maintain]) := by
  rcases m with ⟨a, r, rw⟩
  unfold generate_decisions
  refine ⟨?_, ?_, ?_, ?_⟩
  · cases rw <;> simp [pyEqZero] <;> split_ifs <;> simp_all
  · intro ha
    cases rw <;> simp [pyEqZero, ha] <;> split_ifs <;> simp_all
  · cases rw <;> simp [pyEqZero] <;> split_ifs <;> simp_all
  · intro ha hr hrw
    cases hc : rw with
    | num q =>
        have hq := hrw q (by simp [hc])
        simp [ha, hr, hq]
    | strv s => simp [ha, hr, pyEqZero]
    | nonev => simp [ha, hr, pyEqZero]

/-- A metrics dict whose ad ratio 0.5 is over the threshold. -/
def decisionInputHighAds : DecisionInput :=
  ⟨some (1 / 2), some 0, .strv "Cash Positive"⟩

/-- A metrics dict on which no decision rule fires. -/
def decisionInputQuiet : DecisionInput :=
  ⟨some 0, some 0, .strv "Cash Positive"⟩

/-- Witness for C6: at ad ratio 0.5 the advertising risk is present, and on a
quiet snapshot the actions list is exactly the maintain entry. -/
theorem c6_decision_thresholds_witness :
    Risk.adDependency ∈ (generate_decisions decisionInputHighAds).1 ∧
    (generate_decisions decisionInputQuiet).2 = [Action.maintain] :=
  ⟨(c6_decision_thresholds decisionInputHighAds).1.mpr (by norm_num [decisionInputHighAds]),
   (c6_decision_thresholds decisionInputQuiet).2.2.2
     (by norm_num [decisionInputQuiet]) (by norm_num [decisionInputQuiet])
     (by intro q hq; simp [decisionInputQuiet] at hq)⟩

lemma getColExact_eq_none (cols : List (String × List String)) (name : String)
    (h : ∀ c ∈ cols, c.1 ≠ name) : getColExact cols name = none := by
  unfold getColExact
  rw [List.find?_eq_none.mpr (fun c hc => by simpa using h c hc)]
  rfl

lemma mem_renameMatching (cols : List (String × List String)) (old new : String)
    (x : String × List String) (hx : x ∈ renameMatching cols old new) :
    x.1 = new ∨ x ∈ cols := by
  unfold renameMatching at hx
  rw [List.mem_map] at hx
  obtain ⟨y, hy, hxy⟩ := hx
  by_cases hyc : y.1 = old
  · left; rw [← hxy, if_pos hyc]
  · right; rw [← hxy, if_neg hyc]; exact hy

lemma loaderCols_no_date_col (t : Table)
    (hnd : ∀ c ∈ normHeaders t, isDateName c.1 = false) :
    getColExact (loaderCols t) "date" = none := by
  have hfd : (normHeaders t).find? (fun c => isDateName c.1) = none :=
    List.find?_eq_none.mpr (fun c hc => by simp [hnd c hc])
  refine getColExact_eq_none _ _ ?_
  intro x hx hxd
  have hx' : x ∈ (match (normHeaders t).find? (fun c => isDescName c.1) with
      | some c => renameMatching (normHeaders t) c.1 "description"
      | none => normHeaders t) := by
    simp only [loaderCols, hfd] at hx
    exact hx
  cases h2 : (normHeaders t).find? (fun c => isDescName c.1) with
  | none =>
      rw [h2] at hx'
      have := hnd x hx'
      rw [hxd] at this
      exact absurd this (by decide)
  | some c =>
      rw [h2] at hx'
      rcases mem_renameMatching _ _ _ _ hx' with h | h
      · rw [hxd] at h
        exact absurd h (by decide)
      · have := hnd x h
        rw [hxd] at this
        exact absurd this (by decide)

/-- A table with no date-like, description-like or amount header at all. -/
def tableNoSchema : Table := ⟨[("amount", ["5"]), ("x", ["1"])]⟩

/-- A table with resolvable date and amount columns whose single row has an
unparseable date, so every row is dropped. -/
def tableAllRowsDropped : Table := ⟨[("date", ["garbage"]), ("amount", ["5"])]⟩

/-- A table with date and amount columns but no description-like column. -/
def tableNoDesc : Table := ⟨[("date", ["1"]), ("amount", ["5"])]⟩

/-- C10: load_transactions is total and never raises — whenever the body of its
`try` fails, the exception is swallowed and the empty frame is returned — and a
file with an unresolvable schema is indistinguishable at the interface from a
file whose every row was dropped: both yield the empty frame. -/
theorem c10_loader_total :
    (∀ (t : Table) (e : String),
      loadTransactionsCore t = .error e → loadTransactions t = []) ∧
    loadTransactionsCore tableAllRowsDropped = .ok [] ∧
    loadTransactionsCore tableNoSchema = .error "KeyError: date" ∧
    loadTransactions tableAllRowsDropped = loadTransactions tableNoSchema := by
  refine ⟨?_, by decide, by decide, by decide⟩
  intro t e h
  unfold loadTransactions
  rw [h]

/-- Witness for C10: the catch-all hypothesis discharged at the concrete
schema-less table. -/
theorem c10_loader_total_witness : loadTransactions tableNoSchema = [] :=
  c10_loader_total.1 tableNoSchema "KeyError: date" c10_loader_total.2.2.1

/-- Counterexample to C4: on a table where no column resolves to the date or
description role, load_transactions does not fail with any error — the internal
KeyError is caught and an ordinary empty frame is returned to the caller. -/
theorem c4_counterexample :
    loadTransactionsCore tableNoSchema = .error "KeyError: date" ∧
    loadTransactions tableNoSchema = [] := by
  exact ⟨by decide, by decide⟩

/-- C4 (amended): when no column resolves to the date role, the loader's
internal KeyError is swallowed and the empty frame is returned — no SchemaError
propagates and no role is named; and a missing description role alone does not
even trigger the catch: the load succeeds with rows. -/
theorem c4_amended_no_date_silent :
    (∀ t : Table, (∀ c ∈ normHeaders t, isDateName c.1 = false) →
      loadTransactionsCore t = .error "KeyError: date" ∧ loadTransactions t = []) ∧
    loadTransactionsCore tableNoDesc = .ok [⟨1, 5, none⟩] := by
  constructor
  · intro t hnd
    have hnone := loaderCols_no_date_col t hnd
    constructor
    · simp only [loadTransactionsCore, hnone]
    · simp only [loadTransactions, loadTransactionsCore, hnone]
  · have hcols : loaderCols tableNoDesc = [("date", ["1"]), ("amount", ["5"])] := by decide
    have hdate : getColExact [("date", ["1"]), ("amount", ["5"])] "date" = some ["1"] := by
      decide
    have hamt : getColExact [("date", ["1"]), ("amount", ["5"])] "amount" = some ["5"] := by
      decide
    have hdesc : getColExact [("date", ["1"]), ("amount", ["5"])] "description" = none := by
      decide
    simp [loadTransactionsCore, hcols, hdate, hamt, hdesc, detectAmounts, parseDate,
      trimStr, natOfDigits, digitVal, cleanCurrency, parseFloatQ, parseFloatParts,
      ratOfParts, splitOnDot, List.range_succ]

/-- Witness for C4's amended theorem: discharged at the concrete schema-less
table. -/
theorem c4_amended_no_date_silent_witness :
    loadTransactionsCore tableNoSchema = .error "KeyError: date" ∧
    loadTransactions tableNoSchema = [] :=
  c4_amended_no_date_silent.1 tableNoSchema (by decide)

/-- A table carrying both an inflow/outflow pair and a deposits/withdrawals
pair (and no amount or debit/credit columns). -/
def tableDualPairs : Table :=
  ⟨[("date", ["1"]), ("inflow", ["10"]), ("outflow", ["0"]),
    ("deposits", ["0"]), ("withdrawals", ["5"])]⟩

/-- Counterexample to C5: on a table carrying both the inflow/outflow pair and
the deposits/withdrawals pair, the code resolves the amount from
inflow − outflow (10), while the claim's priority order — withdrawals/deposits
before inflow/outflow — would give deposits − withdrawals (−5). -/
theorem c5_counterexample :
    detectAmounts (loaderCols tableDualPairs) = some [(10 : ℚ)] ∧
    specPriorityAmounts (loaderCols tableDualPairs) = some [(-5 : ℚ)] ∧
    (loadTransactions tableDualPairs).map (fun r => r.amount) = [(10 : ℚ)] := by
  have hcols : loaderCols tableDualPairs =
      [("date", ["1"]), ("inflow", ["10"]), ("outflow", ["0"]),
       ("deposits", ["0"]), ("withdrawals", ["5"])] := by decide
  refine ⟨?_, ?_, ?_⟩
  · have h1 : getColExact (loaderCols tableDualPairs) "amount" = none := by decide
    have h2 : getColExact (loaderCols tableDualPairs) "debit" = none := by decide
    have h3 : getColExact (loaderCols tableDualPairs) "credit" = none := by decide
    have h4 : getColExact (loaderCols tableDualPairs) "inflow" = some ["10"] := by decide
    have h5 : getColExact (loaderCols tableDualPairs) "outflow" = some ["0"] := by decide
    simp [detectAmounts, h1, h2, h3, h4, h5, cleanCurrency, parseFloatQ, parseFloatParts,
      ratOfParts, splitOnDot, natOfDigits, digitVal]
  · have h1 : getColExact (loaderCols tableDualPairs) "amount" = none := by decide
    have h2 : getColExact (loaderCols tableDualPairs) "debit" = none := by decide
    have h3 : getColExact (loaderCols tableDualPairs) "credit" = none := by decide
    have h6 : getColExact (loaderCols tableDualPairs) "deposits" = some ["0"] := by decide
    have h7 : getColExact (loaderCols tableDualPairs) "withdrawals" = some ["5"] := by decide
    simp [specPriorityAmounts, h1, h2, h3, h6, h7, cleanCurrency, parseFloatQ,
      parseFloatParts, ratOfParts, splitOnDot, natOfDigits, digitVal]
  · have h1 : getColExact (loaderCols tableDualPairs) "amount" = none := by decide
    have h2 : getColExact (loaderCols tableDualPairs) "debit" = none := by decide
    have h3 : getColExact (loaderCols tableDualPairs) "credit" = none := by decide
    have h4 : getColExact (loaderCols tableDualPairs) "inflow" = some ["10"] := by decide
    have h5 : getColExact (loaderCols tableDualPairs) "outflow" = some ["0"] := by decide
    have hdate : getColExact (loaderCols tableDualPairs) "date" = some ["1"] := by decide
    have hdesc : getColExact (loaderCols tableDualPairs) "description" = none := by decide
    simp [loadTransactions, loadTransactionsCore, hdate, hdesc, detectAmounts,
      h1, h2, h3, h4, h5, parseDate, trimStr, natOfDigits, digitVal, cleanCurrency,
      parseFloatQ, parseFloatParts, ratOfParts, splitOnDot, List.range_succ]

/-- C5 (amended): the loader's actual amount priority is (a) an explicit
`amount` column, (b) a `debit`/`credit` pair, (c) an `inflow`/`outflow` pair,
(d) a `deposits`/`withdrawals` pair — the last two pairs swapped relative to
the claim. -/
theorem c5_amended_priority (cols : List (String × List String)) :
    (∀ vs, getColExact cols "amount" = some vs →
      detectAmounts cols = some (vs.map cleanCurrency)) ∧
    (getColExact cols "amount" = none →
      ∀ dv cv, getColExact cols "debit" = some dv → getColExact cols "credit" = some cv →
        detectAmounts cols =
          some (List.zipWith (fun c d => cleanCurrency c - cleanCurrency d) cv dv)) ∧
    (getColExact cols "amount" = none →
      (getColExact cols "debit" = none ∨ getColExact cols "credit" = none) →
      ∀ iv ov, getColExact cols "inflow" = some iv → getColExact cols "outflow" = some ov →
        detectAmounts cols =
          some (List.zipWith (fun i o => cleanCurrency i - cleanCurrency o) iv ov)) ∧
    (getColExact cols "amount" = none →
      (getColExact cols "debit" = none ∨ getColExact cols "credit" = none) →
      (getColExact cols "inflow" = none ∨ getColExact cols "outflow" = none) →
      ∀ dp wd, getColExact cols "deposits" = some dp →
        getColExact cols "withdrawals" = some wd →
        detectAmounts cols =
          some (List.zipWith (fun d w => cleanCurrency d - cleanCurrency w) dp wd)) := by
  refine ⟨?_, ?_, ?_, ?_⟩
  · intro vs h
    simp [detectAmounts, h]
  · intro ha dv cv hd hc
    simp [detectAmounts, ha, hd, hc]
  · intro ha hdc iv ov hi ho
    rcases hdc with hd | hc
    · simp [detectAmounts, ha, hd, hi, ho]
    · cases hdeb : getColExact cols "debit" <;>
        simp [detectAmounts, ha, hdeb, hc, hi, ho]
  · intro ha hdc hio dp wd hdp hwd
    rcases hdc with hd | hc
    · rcases hio with hi | ho
      · simp [detectAmounts, ha, hd, hi, hdp, hwd]
      · cases hinf : getColExact cols "inflow" <;>
          simp [detectAmounts, ha, hd, hinf, ho, hdp, hwd]
    · rcases hio with hi | ho
      · cases hdeb : getColExact cols "debit" <;>
          simp [detectAmounts, ha, hdeb, hc, hi, hdp, hwd]
      · cases hdeb : getColExact cols "debit" <;>
          cases hinf : getColExact cols "inflow" <;>
          simp [detectAmounts, ha, hdeb, hc, hinf, ho, hdp, hwd]

/-- Witness for C5's amended theorem: the inflow/outflow-over-deposits
precedence discharged at the concrete dual-pair table. -/
theorem c5_amended_priority_witness :
    detectAmounts (loaderCols tableDualPairs) =
      some (List.zipWith (fun i o => cleanCurrency i - cleanCurrency o) ["10"] ["0"]) :=
  (c5_amended_priority (loaderCols tableDualPairs)).2.2.1 (by decide) (Or.inl (by decide))
    ["10"] ["0"] (by decide) (by decide)

lemma sumAmounts_sortByDate (rows : List Txn) :
    sumAmounts (sortByDate rows) = sumAmounts rows := by
  unfold sumAmounts sortByDate
  exact List.Perm.sum_eq (List.Perm.map _ (List.perm_insertionSort _ rows))

lemma sumAmounts_map_amount_preserving (rows : List Txn) (g : Txn → Txn)
    (hg : ∀ r, (g r).amount = r.amount) :
    sumAmounts (rows.map g) = sumAmounts rows := by
  unfold sumAmounts
  induction rows with
  | nil => rfl
  | cons r rs ih => simp only [List.map_cons, List.sum_cons, hg r, ih]

/-- A canonical one-row frame with a single positive (inflow) transaction. -/
def framePos : Frame :=
  ⟨true, true, true, true, false, false, [⟨1, 5, "sales", "Inflow", none, none⟩]⟩

/-- Counterexample to C1: on the one-row ledger holding a single transaction of
amount 5 with opening_balance 100, the metrics report cash_today = 5, not
100 + 5 — the metrics functions take no opening-balance parameter. -/
theorem c1_counterexample :
    (calculate_business_metrics framePos).map (fun m => m.cash_today) = .ok 5 ∧
    ¬ ((calculate_business_metrics framePos).map (fun m => m.cash_today) =
        .ok (100 + sumAmounts framePos.rows)) := by
  have h : (calculate_business_metrics framePos).map (fun m => m.cash_today) = .ok 5 := by
    simp [calculate_business_metrics, framePos, sortByDate, List.insertionSort,
      sumAmounts, Except.map]
  refine ⟨h, ?_⟩
  rw [h]
  simp [framePos, sumAmounts]

/-- C1 (amended): the cash position reported by both metrics engines is exactly
the sum of the transaction amounts, with no opening-balance contribution:
calculate_business_metrics reports `Σ amounts` and calculate_cash_metrics
reports `round(Σ amounts, 2)`; the claimed `opening_balance + Σ amounts` holds
only for opening_balance = 0. -/
theorem c1_amended_cash_today :
    (∀ (f : Frame) (m : BMetrics), calculate_business_metrics f = .ok m →
      m.cash_today = sumAmounts f.rows) ∧
    (∀ (f : Frame) (m : CashMetrics), calculate_cash_metrics f = .ok m →
      m.cash_today = roundDp 2 (sumAmounts f.rows)) := by
  constructor
  · intro f m h
    unfold calculate_business_metrics at h
    split_ifs at h with h1 h2
    simp only [Except.ok.injEq] at h
    rw [← h]
    exact sumAmounts_sortByDate f.rows
  · intro f m h
    unfold calculate_cash_metrics at h
    split_ifs at h with hA hD
    · simp only [Except.ok.injEq] at h
      rw [← h]
      exact congrArg (roundDp 2) (sumAmounts_map_amount_preserving f.rows _ (fun r => rfl))
    · simp only [Except.ok.injEq] at h
      rw [← h]
      exact congrArg (roundDp 2) (sumAmounts_map_amount_preserving f.rows _ (fun r => rfl))

/-- Witness for C1's amended theorem: discharged at the concrete one-row frame. -/
theorem c1_amended_cash_today_witness :
    ∃ m : BMetrics, calculate_business_metrics framePos = .ok m ∧
      m.cash_today = sumAmounts framePos.rows := by
  cases hm : calculate_business_metrics framePos with
  | error e =>
      exact absurd hm (by simp [calculate_business_metrics, framePos])
  | ok m =>
      exact ⟨m, rfl, c1_amended_cash_today.1 framePos m hm⟩

lemma negRows_eq_nil (rows : List Txn) (h : ∀ r ∈ rows, ¬ r.amount < 0) :
    negRows rows = [] := by
  unfold negRows
  rw [List.filter_eq_nil_iff]
  intro r hr
  simpa using h r hr

lemma burnOf_eq_none (rows : List Txn) (h : ∀ r ∈ rows, ¬ r.amount < 0) :
    burnOf rows = none := by
  unfold burnOf negDates
  rw [negRows_eq_nil rows h]
  rfl

lemma dailyBurnRaw_eq_none (rows : List Txn) (h : ∀ r ∈ rows, ¬ r.amount < 0) :
    dailyBurnRaw rows = none := by
  unfold dailyBurnRaw negDates
  rw [negRows_eq_nil rows h]
  rfl

/-- Counterexample to C3: on a ledger with no outflow row, the burn computed by
cashflow.py's groupby-mean is pandas NaN (modelled `none`), not the claimed 0. -/
theorem c3_counterexample :
    burnOf framePos.rows = none ∧ burnOf framePos.rows ≠ some 0 := by
  constructor <;> decide

/-- C3 (amended): a ledger with no outflow transaction yields an undefined
(NaN) average daily burn, not 0; calculate_cash_metrics maps it to the
"Cash Positive" sentinel without performing any division, and app.py
substitutes daily_burn = 1 — a nonzero divisor — before its numeric runway
division, so neither path divides by zero. -/
theorem c3_amended_no_outflow (f : Frame)
    (hneg : ∀ r ∈ f.rows, ¬ r.amount < 0)
    (hd : f.hasDate = true) (ha : f.hasAmount = true) (ht : f.hasType = true) :
    burnOf f.rows = none ∧
    (calculate_cash_metrics f).map (fun m => m.runway_days) = .ok Runway.cashPositive ∧
    dailyBurnRaw f.rows = none ∧
    dailyBurnApp f.rows = 1 ∧ dailyBurnApp f.rows ≠ 0 := by
  have hmapneg : ∀ r ∈ f.rows.map (fun r =>
      { r with
        ty := toLowerStr r.ty
        description := if f.hasDescription then toLowerStr r.description else "" }),
      ¬ Txn.amount r < 0 := by
    intro r hr
    rw [List.mem_map] at hr
    obtain ⟨x, hx, rfl⟩ := hr
    simpa using hneg x hx
  refine ⟨burnOf_eq_none f.rows hneg, ?_, dailyBurnRaw_eq_none f.rows hneg, ?_, ?_⟩
  · simp only [calculate_cash_metrics, hd, ha, ht]
    rw [burnOf_eq_none _ hmapneg]
    simp [Except.map]
  · unfold dailyBurnApp
    rw [dailyBurnRaw_eq_none f.rows hneg]
  · unfold dailyBurnApp
    rw [dailyBurnRaw_eq_none f.rows hneg]
    norm_num

/-- Witness for C3's amended theorem: discharged at the concrete inflow-only
frame. -/
theorem c3_amended_no_outflow_witness :
    burnOf framePos.rows = none ∧
    (calculate_cash_metrics framePos).map (fun m => m.runway_days) =
      .ok Runway.cashPositive ∧
    dailyBurnApp framePos.rows = 1 :=
  have h := c3_amended_no_outflow framePos (by decide) rfl rfl rfl
  ⟨h.1, h.2.1, h.2.2.2.1⟩

/-- A frame carrying the canonical minimal schema (date, amount, description)
but no type column. -/
def frameNoType : Frame :=
  ⟨true, true, true, false, false, false, [⟨1, 5, "sales", "", none, none⟩]⟩

/-- A frame with a type column, a single unsigned amount, and no debit/credit
columns. -/
def frameTypeOnly : Frame :=
  ⟨true, true, true, true, false, false, [⟨1, 5, "rent", "Outflow", none, none⟩]⟩

/-- Counterexample to C7: on a table supplying exactly the canonical minimal
schema — date, amount, description, no type column — calculate_cash_metrics
does not succeed: it raises ValueError ("CSV must contain date, amount, type
columns"). -/
theorem c7_counterexample :
    calculate_cash_metrics frameNoType =
      .error "CSV must contain date, amount, type columns" := by
  decide

/-- C7 (amended): the type column is not optional for calculate_cash_metrics —
any frame without it is rejected with the ValueError message; in app.py's
normalization the type label does force each transaction's sign, but only on
the branch where the amounts are not already mixed-sign and no debit/credit
column is present. -/
theorem c7_amended_type_column :
    (∀ f : Frame, f.hasType = false →
      calculate_cash_metrics f = .error "CSV must contain date, amount, type columns") ∧
    (∀ f : Frame, mixedSign f.rows = false → f.hasDebit = false → f.hasCredit = false →
      f.hasType = true →
      signReconcile f = .ok { f with rows := f.rows.map (fun r =>
        let tyl := toLowerStr r.ty
        { r with
          ty := tyl
          amount := if typeIsOutflow tyl then -|r.amount| else |r.amount| }) }) := by
  constructor
  · intro f h
    simp [calculate_cash_metrics, h]
  · intro f hmix hd hc ht
    simp [signReconcile, hmix, hd, hc, ht]

/-- Witness for C7's amended theorem: discharged at the concrete no-type frame
and at the concrete type-labelled frame. -/
theorem c7_amended_type_column_witness :
    calculate_cash_metrics frameNoType =
      .error "CSV must contain date, amount, type columns" ∧
    signReconcile frameTypeOnly = .ok { frameTypeOnly with
      rows := frameTypeOnly.rows.map (fun r =>
        let tyl := toLowerStr r.ty
        { r with
          ty := tyl
          amount := if typeIsOutflow tyl then -|r.amount| else |r.amount| }) } :=
  ⟨c7_amended_type_column.1 frameNoType rfl,
   c7_amended_type_column.2 frameTypeOnly (by decide) rfl rfl rfl⟩

/-- C8: sign reconciliation is idempotent on a canonical ledger — when the
amount column already contains both positive and negative values (and no type
column is present), app.py's normalization guard takes the "already
normalized" branch and returns the frame unchanged. -/
theorem c8_sign_reconcile_idempotent (f : Frame)
    (hmix : mixedSign f.rows = true) (hty : f.hasType = false) :
    signReconcile f = .ok f := by
  simp [signReconcile, hmix]

/-- A frame whose amounts are already mixed-sign, with no type column. -/
def frameMixed : Frame :=
  ⟨true, true, true, false, false, false,
   [⟨1, 42000, "Sales", "", none, none⟩, ⟨2, -15000, "Facebook Ads", "", none, none⟩]⟩

/-- Witness for C8: discharged at the concrete mixed-sign frame. -/
theorem c8_sign_reconcile_idempotent_witness :
    mixedSign frameMixed.rows = true ∧ frameMixed.hasType = false ∧
    signReconcile frameMixed = .ok frameMixed :=
  ⟨by decide, rfl, c8_sign_reconcile_idempotent frameMixed (by decide) rfl⟩

end CashflowCOO
